import Mathlib

/-!
Shallow embedding of the Fig build-helper library (src/lib.rs).

The library is a thin wrapper around two cargo directive formats:
declaration lines (rustc-check-cfg) emitted by the mode constructors of
Cfg, and assignment lines (rustc-cfg) emitted by CheckedCfg.set and its
environment-sourced variants.

Modelling conventions:
- Rust strings are Lean String; byte length (Rust str::len) is
  String.utf8ByteSize.
- Printing to the build-output channel is modelled by returning the list
  of emitted lines.  A Rust panic is modelled as Except.error carrying
  the panic message; every function returns the lines printed before the
  abort (here always none, since each source function asserts before it
  prints).
- The four anonymous CheckedCfg implementations behind impl CheckedCfg
  become the four constructors of an inductive type; key and
  is_assignable dispatch on the constructor exactly as each Rust impl
  defines them.
- The process environment consulted by std::env::var is passed
  explicitly as a function from variable names to Except VarError
  String, mirroring Result<String, VarError>.
- Rust Debug formatting of Option<&str> in the assertion message is
  modelled without character escaping (the spec notes values are
  caller-supplied toolchain-safe strings).
-/

namespace Fig

/-- Separator constant used by list_to_value_str (Rust SEPARATOR = ", "). -/
def SEPARATOR : String := ", "

/-- Loop body of list_to_value_str.  The Rust source iterates
values.iter().enumerate(), pushing a quote, the value, a quote, and the
separator whenever the running index differs from final_index. -/
def list_to_value_str_go (final_index : Nat) : Nat → String → List String → String
  | _, acc, [] => acc
  | index, acc, value :: rest =>
    let acc := acc ++ "\"" ++ value ++ "\""
    let acc := if index ≠ final_index then acc ++ SEPARATOR else acc
    list_to_value_str_go final_index (index + 1) acc rest

/-- Embedding of fn list_to_value_str: converts the list of strings into a
value string, quoting each entry and separating entries by ", ". -/
def list_to_value_str (values : List String) : String :=
  let final_index := values.length - 1
  list_to_value_str_go final_index 0 "" values

/-- Capacity computed by list_to_value_str for its string builder (the
source's initial_capcity variable, name kept verbatim including the typo):
sum of the byte lengths of the values plus SEPARATOR bytes for each gap.
Rust saturating_sub is Nat subtraction. -/
def initial_capcity (values : List String) : Nat :=
  (values.map String.utf8ByteSize).sum + SEPARATOR.utf8ByteSize * (values.length - 1)

/-- Formatter described by the spec's words (sections 4.1 and 8): each value
individually double-quoted, joined by ", ", with no trailing separator.
Stated independently of the source to compare against list_to_value_str. -/
def spec_quoted_join : List String → String
  | [] => ""
  | [value] => "\"" ++ value ++ "\""
  | value :: rest => "\"" ++ value ++ "\"" ++ ", " ++ spec_quoted_join rest

/-- Embedding of struct Cfg: a configuration key. -/
structure Cfg where
  key : String
deriving DecidableEq

/-- Embedding of Cfg::new. -/
def Cfg.new (key : String) : Cfg :=
  { key := key }

/-- The four concrete handle variants returned by the mode constructors
(each an anonymous struct Impl in the source, distinguished here by
constructor).  The fixed-set variants carry their allowed-value list. -/
inductive CheckedCfg where
  | assignedNone (key : String)
  | assignedAny (key : String)
  | assignedOneOf (key : String) (values : List String)
  | assignedNoneOrOneOf (key : String) (values : List String)
deriving DecidableEq

/-- Embedding of CheckedCfg::key for each Impl: returns the stored key. -/
def CheckedCfg.key : CheckedCfg → String
  | assignedNone k => k
  | assignedAny k => k
  | assignedOneOf k _ => k
  | assignedNoneOrOneOf k _ => k

/-- Embedding of CheckedCfg::is_assignable for each Impl:
value.is_none; value.is_some; value.is_some_and(contains);
value.is_none_or(contains). -/
def CheckedCfg.is_assignable : CheckedCfg → Option String → Bool
  | assignedNone _, value => value.isNone
  | assignedAny _, value => value.isSome
  | assignedOneOf _ values, value => value.any fun v => values.contains v
  | assignedNoneOrOneOf _ values, value => value.all fun v => values.contains v

/-- Embedding of Cfg::assigned_none: prints the none() declaration line and
returns the none-only handle. -/
def Cfg.assigned_none (c : Cfg) : CheckedCfg × List String :=
  (CheckedCfg.assignedNone c.key,
   ["cargo::rustc-check-cfg=cfg(" ++ c.key ++ ", values(none()))"])

/-- Embedding of Cfg::assigned_any: prints the any() declaration line and
returns the any-value handle. -/
def Cfg.assigned_any (c : Cfg) : CheckedCfg × List String :=
  (CheckedCfg.assignedAny c.key,
   ["cargo::rustc-check-cfg=cfg(" ++ c.key ++ ", values(any()))"])

/-- Embedding of Cfg::assigned_one_of: asserts the list is non-empty (a
panic, modelled as Except.error, before anything is printed), then prints
the fixed-set declaration line and returns the one-of handle. -/
def Cfg.assigned_one_of (c : Cfg) (values : List String) :
    Except String CheckedCfg × List String :=
  if values.isEmpty then
    (Except.error "at least one value should be provided", [])
  else
    (Except.ok (CheckedCfg.assignedOneOf c.key values),
     ["cargo::rustc-check-cfg=cfg(" ++ c.key ++ ", values(" ++
       list_to_value_str values ++ "))"])

/-- Embedding of Cfg::assigned_none_or_one_of: asserts the list is
non-empty, then prints the none-or-fixed-set declaration line and returns
the none-or-one-of handle. -/
def Cfg.assigned_none_or_one_of (c : Cfg) (values : List String) :
    Except String CheckedCfg × List String :=
  if values.isEmpty then
    (Except.error "at least one value should be provided", [])
  else
    (Except.ok (CheckedCfg.assignedNoneOrOneOf c.key values),
     ["cargo::rustc-check-cfg=cfg(" ++ c.key ++ ", values(none(), " ++
       list_to_value_str values ++ "))"])

/-- Debug rendering of an Option candidate as interpolated into the panic
message of set (character escaping inside the value is not modelled). -/
def option_debug : Option String → String
  | none => "None"
  | some v => "Some(\"" ++ v ++ "\")"

/-- Embedding of CheckedCfg::set: asserts the value is assignable (panic
before any output otherwise), then prints the assignment line, with the
value double-quoted when present. -/
def CheckedCfg.set (c : CheckedCfg) (value : Option String) :
    Except String Unit × List String :=
  if c.is_assignable value then
    (Except.ok (),
     [match value with
      | some v => "cargo::rustc-cfg=" ++ c.key ++ "=\"" ++ v ++ "\""
      | none => "cargo::rustc-cfg=" ++ c.key])
  else
    (Except.error
      ("`" ++ option_debug value ++ "` is not assignable to configuration '" ++
        c.key ++ "'"),
     [])

/-- Embedding of std::env::VarError: reading a variable either fails
because it is not present or because its value is not valid Unicode. -/
inductive VarError where
  | NotPresent : VarError
  | NotUnicode (raw : String) : VarError
deriving DecidableEq

/-- Display rendering of VarError as interpolated by the panic in
set_from_env (the messages of the Rust Display impl). -/
def VarError.display : VarError → String
  | NotPresent => "environment variable not found"
  | NotUnicode raw => "environment variable was not valid unicode: \"" ++ raw ++ "\""

/-- Environment model: std::env::var as an explicit function from variable
names to its Result. -/
def EnvModel : Type :=
  String → Except VarError String

/-- Embedding of CheckedCfg::set_from_env.  The source matches:
Ok(value) guarded by non-emptiness delegates to set(Some(value)); Ok(_)
or Err(NotPresent) delegates to set(None); the remaining error (only
NotUnicode) panics with the error's Display text before any output. -/
def CheckedCfg.set_from_env (c : CheckedCfg) (env : EnvModel)
    (variable_key : String) : Except String Unit × List String :=
  match env variable_key with
  | Except.ok value =>
    if !value.isEmpty then c.set (some value) else c.set none
  | Except.error VarError.NotPresent => c.set none
  | Except.error (VarError.NotUnicode raw) =>
    (Except.error (VarError.NotUnicode raw).display, [])

/-- Embedding of CheckedCfg::set_from_env_or_else: identical to
set_from_env except that the missing-or-empty branch delegates to set
applied to the result of the caller-supplied producer. -/
def CheckedCfg.set_from_env_or_else (c : CheckedCfg) (env : EnvModel)
    (variable_key : String) (default : Unit → Option String) :
    Except String Unit × List String :=
  match env variable_key with
  | Except.ok value =>
    if !value.isEmpty then c.set (some value) else c.set (default ())
  | Except.error VarError.NotPresent => c.set (default ())
  | Except.error (VarError.NotUnicode raw) =>
    (Except.error (VarError.NotUnicode raw).display, [])

/-! Helper lemmas about String byte sizes and the formatter loop. -/

theorem utf8ByteSize_eq_utf8Len (s : String) :
    s.utf8ByteSize = String.utf8Len s.data := by
  cases s
  rfl

theorem utf8ByteSize_append (a b : String) :
    (a ++ b).utf8ByteSize = a.utf8ByteSize + b.utf8ByteSize := by
  rw [utf8ByteSize_eq_utf8Len, utf8ByteSize_eq_utf8Len, utf8ByteSize_eq_utf8Len,
    String.data_append, String.utf8Len_append]

theorem list_to_value_str_go_cons (fi idx : Nat) (acc v : String)
    (rest : List String) :
    list_to_value_str_go fi idx acc (v :: rest) =
      list_to_value_str_go fi (idx + 1)
        (if idx ≠ fi then acc ++ "\"" ++ v ++ "\"" ++ SEPARATOR
         else acc ++ "\"" ++ v ++ "\"") rest :=
  rfl

theorem list_to_value_str_go_spec (fi : Nat) (l : List String) :
    ∀ (idx : Nat) (acc : String), idx + l.length = fi + 1 →
      list_to_value_str_go fi idx acc l = acc ++ spec_quoted_join l := by
  induction l with
  | nil =>
    intro idx acc _
    simp [list_to_value_str_go, spec_quoted_join]
  | cons v rest ih =>
    cases rest with
    | nil =>
      intro idx acc hlen
      have hidx : idx = fi := by
        simpa using hlen
      subst hidx
      simp [list_to_value_str_go, spec_quoted_join, String.append_assoc]
    | cons w t =>
      intro idx acc hlen
      have hne : idx ≠ fi := by
        simp only [List.length_cons] at hlen
        omega
      have hrec := ih (idx + 1) (acc ++ "\"" ++ v ++ "\"" ++ SEPARATOR)
        (by simp only [List.length_cons] at hlen ⊢; omega)
      rw [list_to_value_str_go_cons, if_pos hne, hrec]
      simp only [spec_quoted_join, SEPARATOR]
      simp [String.append_assoc]

theorem list_to_value_str_eq_quoted_join (values : List String)
    (h : values ≠ []) :
    list_to_value_str values = spec_quoted_join values := by
  have hlen : 0 + values.length = (values.length - 1) + 1 := by
    cases values with
    | nil => exact absurd rfl h
    | cons v rest => simp
  have := list_to_value_str_go_spec (values.length - 1) values 0 "" hlen
  simpa [list_to_value_str, String.empty_append] using this

theorem spec_quoted_join_utf8ByteSize (l : List String) (h : l ≠ []) :
    (spec_quoted_join l).utf8ByteSize =
      (l.map String.utf8ByteSize).sum + 2 * l.length + 2 * (l.length - 1) := by
  induction l with
  | nil => exact absurd rfl h
  | cons v rest ih =>
    cases rest with
    | nil =>
      have h1 : ("\"" : String).utf8ByteSize = 1 := by decide
      simp only [spec_quoted_join, utf8ByteSize_append, h1, List.map_cons,
        List.map_nil, List.sum_cons, List.sum_nil, List.length_cons,
        List.length_nil]
      omega
    | cons w t =>
      have hrest := ih (List.cons_ne_nil w t)
      have hlen : (w :: t).length ≥ 1 := by simp
      simp only [spec_quoted_join, utf8ByteSize_append, hrest, List.map_cons,
        List.sum_cons, List.length_cons]
      have h1 : ("\"" : String).utf8ByteSize = 1 := by decide
      have h2 : (", " : String).utf8ByteSize = 2 := by decide
      rw [h1, h2]
      omega

/-- C2: for every non-empty list of strings, the output of
list_to_value_str equals each input value wrapped verbatim in double
quotes, joined by the separator ", ", with no leading or trailing
separator (the spec-side formatter spec_quoted_join). -/
theorem claim_C2_formatter (values : List String) (h : values ≠ []) :
    list_to_value_str values = spec_quoted_join values :=
  list_to_value_str_eq_quoted_join values h

/-- C2 witness: concrete evaluation on two values. -/
theorem claim_C2_formatter_witness :
    list_to_value_str ["x", "y"] = spec_quoted_join ["x", "y"] ∧
    spec_quoted_join ["x", "y"] = "\"x\", \"y\"" ∧
    list_to_value_str ["x"] = "\"x\"" :=
  ⟨claim_C2_formatter ["x", "y"] (List.cons_ne_nil _ _), by decide, by decide⟩

/-- C3 counterexample: at the one-element input ["x"], the preallocated
capacity is 1 (the value's single byte, no separators) while the output
string has byte length 3, so the capacity does not equal the output's
byte length: the quote characters are not counted. -/
theorem claim_C3_counterexample :
    initial_capcity ["x"] ≠ (list_to_value_str ["x"]).utf8ByteSize := by
  decide

/-- C3 amended: for every non-empty list, the preallocated capacity equals
the sum of the input byte lengths plus two bytes per gap between
consecutive values (the separators), and it undercounts the output byte
length by exactly the two quote characters per value. -/
theorem claim_C3_capacity (values : List String) (h : values ≠ []) :
    initial_capcity values =
      (values.map String.utf8ByteSize).sum + 2 * (values.length - 1) ∧
    initial_capcity values + 2 * values.length =
      (list_to_value_str values).utf8ByteSize := by
  have hsep : SEPARATOR.utf8ByteSize = 2 := by decide
  have hcap : initial_capcity values =
      (values.map String.utf8ByteSize).sum + 2 * (values.length - 1) := by
    simp [initial_capcity, hsep, Nat.mul_comm]
  refine ⟨hcap, ?_⟩
  rw [list_to_value_str_eq_quoted_join values h,
    spec_quoted_join_utf8ByteSize values h, hcap]
  omega

/-- C3 witness: concrete capacity arithmetic on two one-byte values. -/
theorem claim_C3_capacity_witness :
    initial_capcity ["x", "y"] =
      ((["x", "y"] : List String).map String.utf8ByteSize).sum +
        2 * ((["x", "y"] : List String).length - 1) ∧
    initial_capcity ["x", "y"] + 2 * (["x", "y"] : List String).length =
      (list_to_value_str ["x", "y"]).utf8ByteSize :=
  claim_C3_capacity ["x", "y"] (List.cons_ne_nil _ _)

/-- C4: for every non-empty allowed set S and optional candidate v, the
handle produced by assigned_one_of S accepts v exactly when v is present
and byte-for-byte equal to an entry of S; in particular None is rejected. -/
theorem claim_C4_one_of (key : String) (S : List String) (v : Option String)
    (hS : S ≠ []) (h : CheckedCfg) (out : List String)
    (hmk : (Cfg.new key).assigned_one_of S = (Except.ok h, out)) :
    h.is_assignable v = true ↔ ∃ s, v = some s ∧ s ∈ S := by
  have hne : S.isEmpty = false := by
    cases S with
    | nil => exact absurd rfl hS
    | cons a t => rfl
  simp only [Cfg.assigned_one_of, hne, Bool.false_eq_true, if_false,
    Prod.mk.injEq, Except.ok.injEq] at hmk
  obtain ⟨rfl, -⟩ := hmk
  cases v with
  | none => simp [CheckedCfg.is_assignable]
  | some s => simp [CheckedCfg.is_assignable, Cfg.new]

/-- C4 witness: the handle for set ["a", "b"] accepts "a" and rejects both
"c" and the absent candidate. -/
theorem claim_C4_one_of_witness :
    (CheckedCfg.assignedOneOf "k" ["a", "b"]).is_assignable (some "a") = true ∧
    ¬ (CheckedCfg.assignedOneOf "k" ["a", "b"]).is_assignable (some "c") = true ∧
    ¬ (CheckedCfg.assignedOneOf "k" ["a", "b"]).is_assignable none = true := by
  refine ⟨?_, ?_, ?_⟩
  · exact (claim_C4_one_of "k" ["a", "b"] (some "a") (List.cons_ne_nil _ _)
      _ _ rfl).mpr ⟨"a", rfl, by simp⟩
  · intro hc
    obtain ⟨s, hs, hmem⟩ := (claim_C4_one_of "k" ["a", "b"] (some "c")
      (List.cons_ne_nil _ _) _ _ rfl).mp hc
    cases hs
    simp at hmem
  · intro hc
    obtain ⟨s, hs, -⟩ := (claim_C4_one_of "k" ["a", "b"] none
      (List.cons_ne_nil _ _) _ _ rfl).mp hc
    cases hs

/-- C5: for every non-empty allowed set S and optional candidate v, the
handle produced by assigned_none_or_one_of S accepts v exactly when v is
absent, or present and a member of S. -/
theorem claim_C5_none_or_one_of (key : String) (S : List String)
    (v : Option String) (hS : S ≠ []) (h : CheckedCfg) (out : List String)
    (hmk : (Cfg.new key).assigned_none_or_one_of S = (Except.ok h, out)) :
    h.is_assignable v = true ↔ v = none ∨ ∃ s, v = some s ∧ s ∈ S := by
  have hne : S.isEmpty = false := by
    cases S with
    | nil => exact absurd rfl hS
    | cons a t => rfl
  simp only [Cfg.assigned_none_or_one_of, hne, Bool.false_eq_true, if_false,
    Prod.mk.injEq, Except.ok.injEq] at hmk
  obtain ⟨rfl, -⟩ := hmk
  cases v with
  | none => simp [CheckedCfg.is_assignable]
  | some s => simp [CheckedCfg.is_assignable, Cfg.new]

/-- C5 witness: the handle for set ["a", "b"] accepts the absent candidate
and "a", and rejects "z". -/
theorem claim_C5_none_or_one_of_witness :
    (CheckedCfg.assignedNoneOrOneOf "k" ["a", "b"]).is_assignable none = true ∧
    (CheckedCfg.assignedNoneOrOneOf "k" ["a", "b"]).is_assignable (some "a") = true ∧
    ¬ (CheckedCfg.assignedNoneOrOneOf "k" ["a", "b"]).is_assignable (some "z") = true := by
  refine ⟨?_, ?_, ?_⟩
  · exact (claim_C5_none_or_one_of "k" ["a", "b"] none (List.cons_ne_nil _ _)
      _ _ rfl).mpr (Or.inl rfl)
  · exact (claim_C5_none_or_one_of "k" ["a", "b"] (some "a")
      (List.cons_ne_nil _ _) _ _ rfl).mpr (Or.inr ⟨"a", rfl, by simp⟩)
  · intro hc
    rcases (claim_C5_none_or_one_of "k" ["a", "b"] (some "z")
      (List.cons_ne_nil _ _) _ _ rfl).mp hc with hz | ⟨s, hs, hmem⟩
    · cases hz
    · cases hs
      simp at hmem

/-- C6: the handle from assigned_none accepts exactly the absent candidate,
and the handle from assigned_any accepts exactly the present candidates,
regardless of content. -/
theorem claim_C6_none_any (key : String) (v : Option String) :
    (((Cfg.new key).assigned_none).1.is_assignable v = true ↔ v = none) ∧
    (((Cfg.new key).assigned_any).1.is_assignable v = true ↔ ∃ s, v = some s) := by
  cases v <;>
    simp [Cfg.assigned_none, Cfg.assigned_any, Cfg.new, CheckedCfg.is_assignable]

/-- C7: with an empty allowed set, both fixed-set constructors fail fatally
with the message that at least one value is required and emit no line;
with a non-empty set, each emits exactly one declaration line of the
documented shape and returns its handle. -/
theorem claim_C7_empty_set (key : String) (S : List String) :
    (S = [] →
      (Cfg.new key).assigned_one_of S =
        (Except.error "at least one value should be provided", []) ∧
      (Cfg.new key).assigned_none_or_one_of S =
        (Except.error "at least one value should be provided", [])) ∧
    (S ≠ [] →
      (Cfg.new key).assigned_one_of S =
        (Except.ok (CheckedCfg.assignedOneOf key S),
         ["cargo::rustc-check-cfg=cfg(" ++ key ++ ", values(" ++
           list_to_value_str S ++ "))"]) ∧
      (Cfg.new key).assigned_none_or_one_of S =
        (Except.ok (CheckedCfg.assignedNoneOrOneOf key S),
         ["cargo::rustc-check-cfg=cfg(" ++ key ++ ", values(none(), " ++
           list_to_value_str S ++ "))"])) := by
  constructor
  · rintro rfl
    exact ⟨rfl, rfl⟩
  · intro hS
    have hne : S.isEmpty = false := by
      cases S with
      | nil => exact absurd rfl hS
      | cons a t => rfl
    constructor <;>
      simp [Cfg.assigned_one_of, Cfg.assigned_none_or_one_of, Cfg.new, hne]

/-- C7 witness: concrete empty- and singleton-set instances for both
constructors. -/
theorem claim_C7_empty_set_witness :
    (Cfg.new "k").assigned_one_of [] =
      (Except.error "at least one value should be provided", []) ∧
    (Cfg.new "k").assigned_none_or_one_of [] =
      (Except.error "at least one value should be provided", []) ∧
    (Cfg.new "k").assigned_one_of ["a"] =
      (Except.ok (CheckedCfg.assignedOneOf "k" ["a"]),
       ["cargo::rustc-check-cfg=cfg(" ++ "k" ++ ", values(" ++
         list_to_value_str ["a"] ++ "))"]) := by
  obtain ⟨he, -⟩ := (claim_C7_empty_set "k" []).1 rfl
  obtain ⟨-, he2⟩ := (claim_C7_empty_set "k" []).1 rfl
  obtain ⟨hn, -⟩ := (claim_C7_empty_set "k" ["a"]).2 (List.cons_ne_nil _ _)
  exact ⟨he, he2, hn⟩

/-- C1: for every checked handle and candidate, set on an accepted value
emits exactly one assignment line of the documented shape (bare key for an
absent value, key="value" for a present one); on a rejected value it fails
fatally, emits no line, and the panic message contains both the rejected
value and the configuration key as substrings. -/
theorem claim_C1_set (c : CheckedCfg) (value : Option String) :
    (c.is_assignable value = true → value = none →
      c.set value = (Except.ok (), ["cargo::rustc-cfg=" ++ c.key])) ∧
    (∀ s, c.is_assignable value = true → value = some s →
      c.set value =
        (Except.ok (), ["cargo::rustc-cfg=" ++ c.key ++ "=\"" ++ s ++ "\""])) ∧
    (c.is_assignable value = false →
      (c.set value).2 = [] ∧
      ∃ msg, (c.set value).1 = Except.error msg ∧
        (∃ p q, msg = p ++ (c.key ++ q)) ∧
        ∀ s, value = some s → ∃ p q, msg = p ++ (s ++ q)) := by
  refine ⟨?_, ?_, ?_⟩
  · rintro ha rfl
    simp [CheckedCfg.set, ha]
  · rintro s ha rfl
    simp [CheckedCfg.set, ha]
  · intro ha
    simp only [CheckedCfg.set, ha, Bool.false_eq_true, if_false]
    constructor
    · trivial
    refine ⟨"`" ++ option_debug value ++ "` is not assignable to configuration '" ++
        c.key ++ "'", rfl, ?_, ?_⟩
    · exact ⟨"`" ++ option_debug value ++
        "` is not assignable to configuration '", "'",
        by simp only [String.append_assoc]⟩
    · rintro s rfl
      exact ⟨"`" ++ "Some(\"",
        "\")" ++ ("` is not assignable to configuration '" ++ (c.key ++ "'")),
        by simp only [option_debug, String.append_assoc]⟩

/-- C1 witness: the any-value handle accepts "v" and emits one line; the
none-only handle rejects "v", emitting nothing. -/
theorem claim_C1_set_witness :
    (CheckedCfg.assignedAny "k").set (some "v") =
      (Except.ok (), ["cargo::rustc-cfg=" ++ ("k" : String) ++ "=\"" ++ "v" ++ "\""]) ∧
    ((CheckedCfg.assignedNone "k").set (some "v")).2 = [] := by
  constructor
  · exact (claim_C1_set (CheckedCfg.assignedAny "k") (some "v")).2.1 "v" rfl rfl
  · exact ((claim_C1_set (CheckedCfg.assignedNone "k") (some "v")).2.2 rfl).1

/-- C8: set_from_env behaves as set (some v) when the variable reads as a
non-empty v, as set none when it reads as empty or is not present, and on
a non-Unicode read failure it fails fatally with the read error's display
message and emits nothing. -/
theorem claim_C8_set_from_env (c : CheckedCfg) (env : EnvModel) (K : String) :
    (∀ v, env K = Except.ok v → v ≠ "" →
      c.set_from_env env K = c.set (some v)) ∧
    (env K = Except.ok "" → c.set_from_env env K = c.set none) ∧
    (env K = Except.error VarError.NotPresent →
      c.set_from_env env K = c.set none) ∧
    (∀ raw, env K = Except.error (VarError.NotUnicode raw) →
      c.set_from_env env K =
        (Except.error (VarError.NotUnicode raw).display, [])) := by
  refine ⟨?_, ?_, ?_, ?_⟩
  · intro v hv hne
    have hb : v.isEmpty = false := by
      rcases Bool.eq_false_or_eq_true v.isEmpty with h | h
      · exact absurd ((String.isEmpty_iff v).mp h) hne
      · exact h
    simp [CheckedCfg.set_from_env, hv, hb]
  · intro hv
    have he : ("" : String).isEmpty = true := rfl
    simp [CheckedCfg.set_from_env, hv, he]
  · intro hv
    simp [CheckedCfg.set_from_env, hv]
  · intro raw hv
    simp [CheckedCfg.set_from_env, hv]

/-- C8 witness: the four read outcomes at concrete environments. -/
theorem claim_C8_set_from_env_witness :
    (CheckedCfg.assignedAny "k").set_from_env (fun _ => Except.ok "foo") "K" =
      (CheckedCfg.assignedAny "k").set (some "foo") ∧
    (CheckedCfg.assignedAny "k").set_from_env (fun _ => Except.ok "") "K" =
      (CheckedCfg.assignedAny "k").set none ∧
    (CheckedCfg.assignedAny "k").set_from_env
        (fun _ => Except.error VarError.NotPresent) "K" =
      (CheckedCfg.assignedAny "k").set none ∧
    (CheckedCfg.assignedAny "k").set_from_env
        (fun _ => Except.error (VarError.NotUnicode "raw")) "K" =
      (Except.error ((VarError.NotUnicode "raw").display), []) := by
  refine ⟨?_, ?_, ?_, ?_⟩
  · exact (claim_C8_set_from_env _ _ "K").1 "foo" rfl (by decide)
  · exact (claim_C8_set_from_env _ _ "K").2.1 rfl
  · exact (claim_C8_set_from_env _ _ "K").2.2.1 rfl
  · exact (claim_C8_set_from_env _ _ "K").2.2.2 "raw" rfl

/-- C9: set_from_env_or_else behaves as set (some v) when the variable
reads as a non-empty v, with a result independent of the supplied default
producer; when the variable is missing or reads as empty it behaves as
set applied to the producer's result. -/
theorem claim_C9_or_else (c : CheckedCfg) (env : EnvModel) (K : String)
    (D : Unit → Option String) :
    (∀ v, env K = Except.ok v → v ≠ "" →
      c.set_from_env_or_else env K D = c.set (some v) ∧
      ∀ E : Unit → Option String,
        c.set_from_env_or_else env K E = c.set_from_env_or_else env K D) ∧
    ((env K = Except.ok "" ∨ env K = Except.error VarError.NotPresent) →
      c.set_from_env_or_else env K D = c.set (D ())) := by
  constructor
  · intro v hv hne
    have hb : v.isEmpty = false := by
      rcases Bool.eq_false_or_eq_true v.isEmpty with h | h
      · exact absurd ((String.isEmpty_iff v).mp h) hne
      · exact h
    constructor
    · simp [CheckedCfg.set_from_env_or_else, hv, hb]
    · intro E
      simp [CheckedCfg.set_from_env_or_else, hv, hb]
  · have he : ("" : String).isEmpty = true := rfl
    rintro (hv | hv) <;> simp [CheckedCfg.set_from_env_or_else, hv, he]

/-- C9 witness: with the variable missing the default "d" is assigned; with
the variable set to "foo" that value wins. -/
theorem claim_C9_or_else_witness :
    (CheckedCfg.assignedAny "k").set_from_env_or_else
        (fun _ => Except.error VarError.NotPresent) "K" (fun _ => some "d") =
      (CheckedCfg.assignedAny "k").set (some "d") ∧
    (CheckedCfg.assignedAny "k").set_from_env_or_else
        (fun _ => Except.ok "foo") "K" (fun _ => some "d") =
      (CheckedCfg.assignedAny "k").set (some "foo") := by
  constructor
  · exact (claim_C9_or_else _ _ "K" (fun _ => some "d")).2 (Or.inr rfl)
  · exact ((claim_C9_or_else _ _ "K" (fun _ => some "d")).1 "foo" rfl
      (by decide)).1

/-- C10: Cfg.new stores the key unchanged, and every handle produced by the
four mode constructors reports exactly that key; handles are immutable
values, so the key cannot change across is_assignable or set calls. -/
theorem claim_C10_key (k : String) (S : List String) (hS : S ≠ []) :
    (Cfg.new k).key = k ∧
    ((Cfg.new k).assigned_none).1.key = k ∧
    ((Cfg.new k).assigned_any).1.key = k ∧
    (∀ h out, (Cfg.new k).assigned_one_of S = (Except.ok h, out) →
      h.key = k) ∧
    (∀ h out, (Cfg.new k).assigned_none_or_one_of S = (Except.ok h, out) →
      h.key = k) := by
  have hne : S.isEmpty = false := by
    cases S with
    | nil => exact absurd rfl hS
    | cons a t => rfl
  refine ⟨rfl, rfl, rfl, ?_, ?_⟩
  · intro h out hmk
    simp only [Cfg.assigned_one_of, hne, Bool.false_eq_true, if_false,
      Prod.mk.injEq, Except.ok.injEq] at hmk
    obtain ⟨rfl, -⟩ := hmk
    rfl
  · intro h out hmk
    simp only [Cfg.assigned_none_or_one_of, hne, Bool.false_eq_true, if_false,
      Prod.mk.injEq, Except.ok.injEq] at hmk
    obtain ⟨rfl, -⟩ := hmk
    rfl

/-- C10 witness: concrete keys for all four constructors with set ["a"]. -/
theorem claim_C10_key_witness :
    ((Cfg.new "k").assigned_none).1.key = "k" ∧
    ((Cfg.new "k").assigned_any).1.key = "k" ∧
    (CheckedCfg.assignedOneOf "k" ["a"]).key = "k" ∧
    (CheckedCfg.assignedNoneOrOneOf "k" ["a"]).key = "k" := by
  obtain ⟨-, h1, h2, h3, h4⟩ := claim_C10_key "k" ["a"] (List.cons_ne_nil _ _)
  exact ⟨h1, h2, h3 _ _ rfl, h4 _ _ rfl⟩

end Fig
